import Mathlib

/-!
Shallow embedding of the ESP32InternetRadio repository (two program
variants: `src/esp32InternetRadio.cpp`, a switch-based menu dispatcher,
and `src/main.cpp`, a function-pointer menu dispatcher).  Serial output,
audio-engine commands and other externally visible actions are modelled
as structured `Effect` events, one constructor per call site in the
source; each C function becomes a Lean function from the session state
to the new session state paired with the list of effects it emits, in
source order.
-/

/-- Volume bound named MIN_VOLUME in both source files (value 0). -/
def MIN_VOLUME : Int := 0

/-- Volume bound named MAX_VOLUME in both source files (value 21). -/
def MAX_VOLUME : Int := 21

/-- Default volume named DEFAULT_VOLUME in both source files (value 10). -/
def DEFAULT_VOLUME : Int := 10

/-- Externally visible events.  Engine commands mirror the calls on the
`Audio audio` object; the print constructors mirror the individual
`Serial.print` / `Serial.printf` call sites, carrying their runtime
arguments; the remaining constructors mirror the other side-effecting
calls in `setup` / `initWiFi` / `loop`.  `clearLine` is the CLEAR_LINE
macro (a carriage-return blanking print). -/
inductive Effect where
  | setPinout
  | setVolume (level : Int)
  | connecttohost (url : String)
  | connecttospeech (txt : String) (lang : String)
  | connecttoFS (path : String)
  | audioLoop
  | clearLine
  | printMenuTitle
  | printMenuItem (key : Char) (name : String)
  | printKeyPrompt
  | printStationBanner (name : String) (url : String)
  | printVolume (level : Int)
  | printSpeakerOff
  | printSpeakerOn
  | printStartConnect
  | wifiBegin
  | printConnecting
  | delayMs (ms : Nat)
  | printConnected
  | printConnDetails
  | printNetworks
  | spiffsBegin
  | serialBegin
  | pinModeOutput
  | logConnFailed
  | heartbeatSignal
  deriving DecidableEq, Repr

/-- Engine commands are the calls on the external `Audio` object
(apart from the periodic `audio.loop()` service step). -/
def isEngineCall : Effect → Bool
  | .setPinout => true
  | .setVolume _ => true
  | .connecttohost _ => true
  | .connecttospeech _ _ => true
  | .connecttoFS _ => true
  | _ => false

/-- Render effects are the serial print calls. -/
def isRender : Effect → Bool
  | .clearLine => true
  | .printMenuTitle => true
  | .printMenuItem _ _ => true
  | .printKeyPrompt => true
  | .printStationBanner _ _ => true
  | .printVolume _ => true
  | .printSpeakerOff => true
  | .printSpeakerOn => true
  | .printStartConnect => true
  | .printConnecting => true
  | .printConnected => true
  | .printConnDetails => true
  | .printNetworks => true
  | .logConnFailed => true
  | _ => false

/-- Predicate picking out the playback command `audio.connecttohost`. -/
def isPlayCall : Effect → Bool
  | .connecttohost _ => true
  | _ => false

/-- Mutable session state shared by both variants: the file-scope
variables `currentStation`, `currentUrl`, `currentVolume` and the
static local `spkrIsOn` of `toggleSpeaker`. -/
structure State where
  currentStation : Nat
  currentUrl : String
  currentVolume : Int
  spkrIsOn : Bool
  deriving DecidableEq, Repr

namespace Esp32InternetRadio

/-- Element type of the `station[]` table in esp32InternetRadio.cpp. -/
structure Radiostation where
  key : Char
  name : String
  url : String
  deriving DecidableEq, Repr

/-- Speech demo texts, the `text[]` array of esp32InternetRadio.cpp. -/
def text : List String :=
  [ "Internet radio (also web radio, net radio, streaming radio, e-radio, IP radio, online radio) is a digital audio service transmitted via the Internet.",
    "Als Internetradio (auch Webradio) bezeichnet man ein Internet-basiertes Angebot an Hörfunksendungen.",
    "Internet radio (anche web radio) è il termine usato per descrivere una gamma di programmi radiofonici su Internet." ]

/-- Element of `text[]` at index `i`. -/
def textAt (i : Nat) : String := (text.get? i).getD ""

/-- The `station[]` table of esp32InternetRadio.cpp, in source order. -/
def station : List Radiostation :=
  [ ⟨'0', "Klassik Radio",     "http://stream.klassikradio.de/live/mp3-128/stream.klassikradio.de"⟩,
    ⟨'1', "SRF1 AG-SO",        "http://stream.srg-ssr.ch/m/regi_ag_so/mp3_128"⟩,
    ⟨'2', "SRF2",              "http://stream.srg-ssr.ch/m/drs2/mp3_128"⟩,
    ⟨'3', "SRF3",              "http://stream.srg-ssr.ch/m/drs3/mp3_128"⟩,
    ⟨'4', "SRF4 News",         "http://stream.srg-ssr.ch/m/drs4news/mp3_128"⟩,
    ⟨'5', "Swiss Classic",     "http://stream.srg-ssr.ch/m/rsc_de/mp3_128"⟩,
    ⟨'6', "Swiss Jazz",        "http://stream.srg-ssr.ch/m/rsj/mp3_128"⟩,
    ⟨'7', "SRF Musikwelle",    "http://stream.srg-ssr.ch/m/drsmw/mp3_128"⟩,
    ⟨'8', "Alles Blasmusik",   "http://stream.bayerwaldradio.com/allesblasmusik"⟩,
    ⟨'9', "WKVI-AM",           "http://kvbstreams.dyndns.org:8000/wkvi-am"⟩,
    ⟨'a', "DLF",               "http://st01.dlf.de/dlf/01/128/mp3/stream.mp3"⟩,
    ⟨'b', "WDR 1 Live",        "http://www.wdr.de/wdrlive/media/einslive.m3u"⟩,
    ⟨'c', "SWR1 BW",           "http://mp3-live.swr.de/swr1bw_m.m3u"⟩,
    ⟨'d', "SWR2",              "http://mp3-live.swr.de/swr2_m.m3u"⟩,
    ⟨'e', "SWR3",              "http://mp3-live.swr3.de/swr3_m.m3u"⟩,
    ⟨'f', "SWR4 BW",           "http://mp3-live.swr.de/swr4bw_m.m3u"⟩,
    ⟨'g', "SWR Aktuell",       "http://mp3-live.swr.de/swraktuell_m.m3u"⟩,
    ⟨'h', "DasDing",           "http://mp3-live.dasding.de/dasding_m.m3u"⟩,
    ⟨'i', "Jazz MMX",          "http://jazz.streamr.ru/jazz-64.mp3"⟩,
    ⟨'j', "Irish Pub Radio",   "http://macslons-irish-pub-radio.com/media.asx"⟩,
    ⟨'k', "HIT Radio FFH MP3", "http://mp3.ffh.de/radioffh/hqlivestream.mp3"⟩,
    ⟨'l', "Capital London",    "http://vis.media-ice.musicradio.com/CapitalMP3"⟩,
    ⟨'m', "ORF",               "https://orf-live.ors-shoutcast.at/vbg-q1a"⟩,
    ⟨'n', "Beatles Radio",     "http://www.beatlesradio.com:8000/stream/1/"⟩,
    ⟨'!', "Speech 1",              ""⟩,
    ⟨'.', "Speech 2",              ""⟩,
    ⟨',', "Speech 3",              ""⟩,
    ⟨'+', "Increment volume",      ""⟩,
    ⟨'-', "Decrement volume",      ""⟩,
    ⟨'T', "Toggle speaker on/off", ""⟩,
    ⟨'C', "Show current Station",  ""⟩,
    ⟨'S', "Show Menu",             ""⟩ ]

/-- Number of entries, `nbrRadiostations` in the source. -/
def nbrRadiostations : Nat := station.length

/-- Table entry at index `i` (array indexing `station[i]`). -/
def stationAt (i : Nat) : Radiostation := (station.get? i).getD ⟨' ', "", ""⟩

/-- Initial session state: `currentStation = 5` (preselect Swiss
Classic), `currentUrl = station[currentStation].url`,
`currentVolume = DEFAULT_VOLUME`, speaker initially on. -/
def initialState : State :=
  { currentStation := 5
    currentUrl := (stationAt 5).url
    currentVolume := DEFAULT_VOLUME
    spkrIsOn := true }

/-- C function `showCurrentStation`: print name and url of the current
station. -/
def showCurrentStation (s : State) : State × List Effect :=
  (s, [Effect.clearLine,
       Effect.printStationBanner (stationAt s.currentStation).name s.currentUrl])

/-- C function `showMenu`: print the banner, every entry in table
order, and the key prompt. -/
def showMenu (s : State) : State × List Effect :=
  (s, Effect.printMenuTitle ::
      (station.map (fun r => Effect.printMenuItem r.key r.name) ++
       [Effect.printKeyPrompt]))

/-- C function `incrementVolume`: if below MAX_VOLUME, increment and
push the new level to the engine; always report the level. -/
def incrementVolume (s : State) : State × List Effect :=
  if s.currentVolume < MAX_VOLUME then
    ({ s with currentVolume := s.currentVolume + 1 },
     [Effect.setVolume (s.currentVolume + 1), Effect.clearLine,
      Effect.printVolume (s.currentVolume + 1)])
  else
    (s, [Effect.clearLine, Effect.printVolume s.currentVolume])

/-- C function `decrementVolume`: if above 0, decrement and push the
new level to the engine; always report the level. -/
def decrementVolume (s : State) : State × List Effect :=
  if s.currentVolume > 0 then
    ({ s with currentVolume := s.currentVolume - 1 },
     [Effect.setVolume (s.currentVolume - 1), Effect.clearLine,
      Effect.printVolume (s.currentVolume - 1)])
  else
    (s, [Effect.clearLine, Effect.printVolume s.currentVolume])

/-- C function `toggleSpeaker`: turning off mutes the engine without
touching `currentVolume`; turning on restores `currentVolume`, first
resetting it to DEFAULT_VOLUME when it equals MIN_VOLUME. -/
def toggleSpeaker (s : State) : State × List Effect :=
  if s.spkrIsOn then
    ({ s with spkrIsOn := false },
     [Effect.setVolume MIN_VOLUME, Effect.clearLine, Effect.printSpeakerOff])
  else
    let v := if s.currentVolume == MIN_VOLUME then DEFAULT_VOLUME else s.currentVolume
    ({ s with currentVolume := v, spkrIsOn := true },
     [Effect.setVolume v, Effect.clearLine, Effect.printSpeakerOn])

/-- C function `doMenu`: clear the input line, scan the table for the
first entry whose key matches, and dispatch on the key with the station
keys in the default branch (which selects the station and connects to
its url).  An unmatched key falls through the scan with no action. -/
def doMenu (key : Char) (s : State) : State × List Effect :=
  match station.findIdx? (fun r => r.key == key) with
  | none => (s, [Effect.clearLine])
  | some i =>
    let dispatch : State × List Effect :=
      if key == 'S' then showMenu s
      else if key == 'C' then showCurrentStation s
      else if key == 'T' then toggleSpeaker s
      else if key == '!' then (s, [Effect.connecttospeech (textAt 0) "en"])
      else if key == '.' then (s, [Effect.connecttospeech (textAt 1) "de"])
      else if key == ',' then (s, [Effect.connecttospeech (textAt 2) "it"])
      else if key == '+' then incrementVolume s
      else if key == '-' then decrementVolume s
      else
        let url := (stationAt i).url
        ({ s with currentStation := i, currentUrl := url },
         [Effect.connecttohost url])
    (dispatch.1, Effect.clearLine :: dispatch.2)

/-- C function `initAudio`: route output pins, apply the current
volume, connect to the current url. -/
def initAudio (s : State) : List Effect :=
  [Effect.setPinout, Effect.setVolume s.currentVolume,
   Effect.connecttohost s.currentUrl]

end Esp32InternetRadio

namespace MainCpp

/-- Action tags for the function pointers bound in the `menu[]` table
of main.cpp (the declared handler functions). -/
inductive Action where
  | playRadio
  | playMP3
  | textToSpeachEn
  | textToSpeachDe
  | textToSpeachIt
  | incrementVolume
  | decrementVolume
  | toggleSpeaker
  | showCurrentStation
  | showMenu
  deriving DecidableEq, Repr

/-- Element type of the `menu[]` table in main.cpp (`MenuItem`). -/
structure MenuItem where
  key : Char
  txt : String
  arg : String
  action : Action
  deriving DecidableEq, Repr

/-- Speech demo texts, the `text[]` array of main.cpp. -/
def text : List String :=
  [ "Internet radio (also web radio, net radio, streaming radio, e-radio, IP radio, online radio) is a digital audio service transmitted via the Internet",
    "Als Internetradio (auch Webradio) bezeichnet man ein Internet-basiertes Angebot an Hörfunksendungen",
    "Internet radio (anche web radio) è il termine usato per descrivere una gamma di programmi radiofonici su Internet" ]

/-- Element of `text[]` at index `i`. -/
def textAt (i : Nat) : String := (text.get? i).getD ""

/-- The `menu[]` table of main.cpp, in source order. -/
def menu : List MenuItem :=
  [ ⟨'0', "MDR-Klassik",       "http://mdr-284350-0.cast.mdr.de/mdr/284350/0/mp3/high/stream.mp3", .playRadio⟩,
    ⟨'1', "SRF1 AG-SO",        "http://stream.srg-ssr.ch/m/regi_ag_so/mp3_128",  .playRadio⟩,
    ⟨'2', "SRF2",              "http://stream.srg-ssr.ch/m/drs2/mp3_128",        .playRadio⟩,
    ⟨'3', "SRF3",              "http://stream.srg-ssr.ch/m/drs3/mp3_128",        .playRadio⟩,
    ⟨'4', "SRF4 News",         "http://stream.srg-ssr.ch/m/drs4news/mp3_128",    .playRadio⟩,
    ⟨'5', "Swiss Classic",     "http://stream.srg-ssr.ch/m/rsc_de/mp3_128",      .playRadio⟩,
    ⟨'6', "Swiss Jazz",        "http://stream.srg-ssr.ch/m/rsj/mp3_128",         .playRadio⟩,
    ⟨'7', "SRF Musikwelle",    "http://stream.srg-ssr.ch/m/drsmw/mp3_128",       .playRadio⟩,
    ⟨'8', "Alles Blasmusik",   "http://stream.bayerwaldradio.com/allesblasmusik", .playRadio⟩,
    ⟨'9', "WKVI-AM",           "http://kvbstreams.dyndns.org:8000/wkvi-am",      .playRadio⟩,
    ⟨'a', "DLF",               "http://st01.dlf.de/dlf/01/128/mp3/stream.mp3",   .playRadio⟩,
    ⟨'b', "WDR 1 Live",        "http://www.wdr.de/wdrlive/media/einslive.m3u",   .playRadio⟩,
    ⟨'c', "SWR1 BW",           "https://liveradio.swr.de/sw282p3/swr1bw/",       .playRadio⟩,
    ⟨'d', "SWR2",              "https://liveradio.swr.de/sw282p3/swr2/",         .playRadio⟩,
    ⟨'e', "SWR3",              "https://liveradio.swr.de/sw282p3/swr3/",         .playRadio⟩,
    ⟨'f', "SWR4 BW",           "https://liveradio.swr.de/sw282p3/swr4bw/",       .playRadio⟩,
    ⟨'g', "BR Klassik",        "https://dispatcher.rndfnk.com/br/brklassik/live/mp3/mid", .playRadio⟩,
    ⟨'h', "Blues Mobile",      "https://strm112.1.fm/blues_mobile_mp3",          .playRadio⟩,
    ⟨'i', "Jazz MMX",          "http://jazz.streamr.ru/jazz-64.mp3",             .playRadio⟩,
    ⟨'j', "Radio Classique",   "http://radioclassique.ice.infomaniak.ch/radioclassique-high.mp3", .playRadio⟩,
    ⟨'k', "HIT Radio FFH MP3", "http://mp3.ffh.de/radioffh/hqlivestream.mp3",    .playRadio⟩,
    ⟨'l', "Capital London",    "http://vis.media-ice.musicradio.com/CapitalMP3", .playRadio⟩,
    ⟨'m', "ORF",               "https://orf-live.ors-shoutcast.at/vbg-q1a",      .playRadio⟩,
    ⟨'n', "Beatles Radio",     "http://www.beatlesradio.com:8000/stream/1/",     .playRadio⟩,
    ⟨'!', "Text to speach en",     (text.get? 0).getD "", .textToSpeachEn⟩,
    ⟨'.', "Text to speach de",     (text.get? 1).getD "", .textToSpeachDe⟩,
    ⟨',', "Text to speach it",     (text.get? 2).getD "", .textToSpeachIt⟩,
    ⟨'t', "Test stereo channels", "/stereotest440-445.mp3", .playMP3⟩,
    ⟨'+', "Increment volume",      "", .incrementVolume⟩,
    ⟨'-', "Decrement volume",      "", .decrementVolume⟩,
    ⟨'T', "Toggle speaker on/off", "", .toggleSpeaker⟩,
    ⟨'C', "Show current Station",  "", .showCurrentStation⟩,
    ⟨'S', "Show Menu",             "", .showMenu⟩ ]

/-- Number of entries, `nbrMenuItems` in the source. -/
def nbrMenuItems : Nat := menu.length

/-- Table entry at index `i` (array indexing `menu[i]`). -/
def menuAt (i : Nat) : MenuItem := (menu.get? i).getD ⟨' ', "", "", .showMenu⟩

/-- Initial session state of main.cpp: `currentStation = 5` (preselect
Swiss Classic), `currentUrl = menu[currentStation].arg`,
`currentVolume = DEFAULT_VOLUME`, speaker initially on. -/
def initialState : State :=
  { currentStation := 5
    currentUrl := (menuAt 5).arg
    currentVolume := DEFAULT_VOLUME
    spkrIsOn := true }

/-- C function `showCurrentStation` of main.cpp. -/
def showCurrentStation (s : State) : State × List Effect :=
  (s, [Effect.clearLine,
       Effect.printStationBanner (menuAt s.currentStation).txt s.currentUrl])

/-- C function `showMenu` of main.cpp. -/
def showMenu (s : State) : State × List Effect :=
  (s, Effect.printMenuTitle ::
      (menu.map (fun r => Effect.printMenuItem r.key r.txt) ++
       [Effect.printKeyPrompt]))

/-- C function `incrementVolume` of main.cpp (same body as the other
variant). -/
def incrementVolume (s : State) : State × List Effect :=
  if s.currentVolume < MAX_VOLUME then
    ({ s with currentVolume := s.currentVolume + 1 },
     [Effect.setVolume (s.currentVolume + 1), Effect.clearLine,
      Effect.printVolume (s.currentVolume + 1)])
  else
    (s, [Effect.clearLine, Effect.printVolume s.currentVolume])

/-- C function `decrementVolume` of main.cpp. -/
def decrementVolume (s : State) : State × List Effect :=
  if s.currentVolume > 0 then
    ({ s with currentVolume := s.currentVolume - 1 },
     [Effect.setVolume (s.currentVolume - 1), Effect.clearLine,
      Effect.printVolume (s.currentVolume - 1)])
  else
    (s, [Effect.clearLine, Effect.printVolume s.currentVolume])

/-- C function `toggleSpeaker` of main.cpp. -/
def toggleSpeaker (s : State) : State × List Effect :=
  if s.spkrIsOn then
    ({ s with spkrIsOn := false },
     [Effect.setVolume MIN_VOLUME, Effect.clearLine, Effect.printSpeakerOff])
  else
    let v := if s.currentVolume == MIN_VOLUME then DEFAULT_VOLUME else s.currentVolume
    ({ s with currentVolume := v, spkrIsOn := true },
     [Effect.setVolume v, Effect.clearLine, Effect.printSpeakerOn])

/-- Interpretation of the function pointer stored in a menu entry,
applied to the entry argument (`menu[i].action(menu[i].arg)`).  The
play and speech handlers only command the engine: `playRadio` is
`audio.connecttohost(txt)` with no state access, `playMP3` is
`audio.connecttoFS(SPIFFS, file)`, `textToSpeach..` are
`audio.connecttospeech(txt, lang)`. -/
def runAction (a : Action) (arg : String) (s : State) : State × List Effect :=
  match a with
  | .playRadio => (s, [Effect.connecttohost arg])
  | .playMP3 => (s, [Effect.connecttoFS arg])
  | .textToSpeachEn => (s, [Effect.connecttospeech arg "en"])
  | .textToSpeachDe => (s, [Effect.connecttospeech arg "de"])
  | .textToSpeachIt => (s, [Effect.connecttospeech arg "it"])
  | .incrementVolume => incrementVolume s
  | .decrementVolume => decrementVolume s
  | .toggleSpeaker => toggleSpeaker s
  | .showCurrentStation => showCurrentStation s
  | .showMenu => showMenu s

/-- C function `doMenu` of main.cpp: clear the input line, scan the
table for the first entry whose key matches, and invoke that entry
action on its argument. -/
def doMenu (key : Char) (s : State) : State × List Effect :=
  match menu.findIdx? (fun r => r.key == key) with
  | none => (s, [Effect.clearLine])
  | some i =>
    let dispatch := runAction (menuAt i).action (menuAt i).arg s
    (dispatch.1, Effect.clearLine :: dispatch.2)

/-- C function `initAudio` of main.cpp. -/
def initAudio (s : State) : List Effect :=
  [Effect.setPinout, Effect.setVolume s.currentVolume,
   Effect.connecttohost s.currentUrl]

end MainCpp

/-- Static locals of the C `loop` function: `msPrevious` and the
one-shot latch `done` guarding the automatic menu display. -/
structure LoopState where
  msPrevious : Nat
  done : Bool
  deriving DecidableEq, Repr

/-- Unsigned 32-bit subtraction `a - b` as it behaves on `uint32_t`. -/
def sub32 (a b : Nat) : Nat := (a % 2 ^ 32 + 2 ^ 32 - b % 2 ^ 32) % 2 ^ 32

/-- C function `waitIsOver` (the boolean test; the `msPrevious`
update is modelled at the call site): `millis() - msPrevious >= msWait`
on 32-bit unsigned arithmetic. -/
def waitIsOver (now msPrevious msWait : Nat) : Bool :=
  sub32 now msPrevious ≥ msWait

namespace Esp32InternetRadio

/-- One iteration of the C `loop` function: service the engine, show
the menu once when the 5 second startup delay has elapsed and the
`done` latch is still clear (setting the latch), then dispatch at most
one pending input character. -/
def loopStep (ls : LoopState) (s : State) (now : Nat) (input : Option Char) :
    LoopState × State × List Effect :=
  let auto :=
    if ls.done then (ls, ([] : List Effect))
    else if waitIsOver now ls.msPrevious 5000 then
      ({ msPrevious := now, done := true }, (showMenu s).2)
    else (ls, [])
  match input with
  | some key =>
    let r := doMenu key s
    (auto.1, r.1, Effect.audioLoop :: (auto.2 ++ r.2))
  | none => (auto.1, s, Effect.audioLoop :: auto.2)

/-- Repeated `loop` iterations over a schedule of (millis value,
pending input) pairs, returning the per-iteration outcomes. -/
def runLoop (ls : LoopState) (s : State) :
    List (Nat × Option Char) → List (LoopState × State × List Effect)
  | [] => []
  | (t, inp) :: rest =>
    let r := loopStep ls s t inp
    r :: runLoop r.1 r.2.1 rest

/-- The `while (WiFi.status() != WL_CONNECTED)` wait of `initWiFi`,
driven by an oracle giving the WiFi status at each poll and bounded by
fuel: returns the effects emitted so far and the poll index at which
the connection was observed, if any. -/
def wifiWait (status : Nat → Bool) : Nat → Nat → List Effect × Option Nat
  | _, 0 => ([], none)
  | t, fuel + 1 =>
    if status t then ([], some t)
    else
      let r := wifiWait status (t + 1) fuel
      (Effect.printConnecting :: Effect.delayMs 1000 :: r.1, r.2)

/-- C function `initWiFi` of esp32InternetRadio.cpp: announce, start
the connection, poll forever until connected (here bounded by fuel),
then report success and the connection details.  The boolean records
whether the function has returned (true) or is still inside the poll
loop when the fuel runs out (false). -/
def initWiFi (status : Nat → Bool) (fuel : Nat) : List Effect × Bool :=
  let pre := [Effect.printStartConnect, Effect.wifiBegin]
  let r := wifiWait status 0 fuel
  match r.2 with
  | none => (pre ++ r.1, false)
  | some _ =>
    (pre ++ r.1 ++ [Effect.printConnected, Effect.printConnDetails], true)

/-- The whole program of esp32InternetRadio.cpp: `setup` (serial init,
`initWiFi`, `initAudio`) followed by the `loop` iterations, emitted as
one effect trace.  When the WiFi never connects within the fuel the
trace is the partial trace produced while still blocked in `initWiFi`:
`initAudio` and the loop are never reached. -/
def program (status : Nat → Bool) (fuel t0 : Nat)
    (inputs : List (Nat × Option Char)) : List Effect :=
  let r := initWiFi status fuel
  if r.2 then
    Effect.serialBegin :: (r.1 ++ initAudio initialState ++
      ((runLoop { msPrevious := t0, done := false } initialState inputs).map
        (fun p => p.2.2)).flatten)
  else
    Effect.serialBegin :: r.1

end Esp32InternetRadio

namespace MainCpp

/-- One iteration of the C `loop` function of main.cpp (same shape as
the other variant, using the main.cpp menu). -/
def loopStep (ls : LoopState) (s : State) (now : Nat) (input : Option Char) :
    LoopState × State × List Effect :=
  let auto :=
    if ls.done then (ls, ([] : List Effect))
    else if waitIsOver now ls.msPrevious 5000 then
      ({ msPrevious := now, done := true }, (showMenu s).2)
    else (ls, [])
  match input with
  | some key =>
    let r := doMenu key s
    (auto.1, r.1, Effect.audioLoop :: (auto.2 ++ r.2))
  | none => (auto.1, s, Effect.audioLoop :: auto.2)

/-- Repeated `loop` iterations of main.cpp. -/
def runLoop (ls : LoopState) (s : State) :
    List (Nat × Option Char) → List (LoopState × State × List Effect)
  | [] => []
  | (t, inp) :: rest =>
    let r := loopStep ls s t inp
    r :: runLoop r.1 r.2.1 rest

/-- Modelled from the spec: the body of the extern `heartbeat` helper
is not part of src/; per the error-handling design it emits a visible
failure signal on the builtin LED each time it is called, modelled as
one `heartbeatSignal` effect per iteration of the `while(true)` loop
(bounded by fuel). -/
def hardFail : Nat → List Effect
  | 0 => []
  | n + 1 => Effect.heartbeatSignal :: hardFail n

/-- The whole program of main.cpp: `setup` runs serial and pin init,
then the extern `initWiFi` (modelled by its boolean result `wifiOk`,
since its body is not part of src/); on failure it logs and loops the
heartbeat forever (bounded by fuel), never reaching the rest of setup
or the loop; on success it mounts SPIFFS, prints network info, runs
`initAudio` and enters the `loop` iterations. -/
def program (wifiOk : Bool) (fuel t0 : Nat)
    (inputs : List (Nat × Option Char)) : List Effect :=
  let pre := [Effect.serialBegin, Effect.pinModeOutput]
  if wifiOk then
    pre ++ [Effect.spiffsBegin, Effect.printNetworks, Effect.printConnDetails] ++
      initAudio initialState ++
      ((runLoop { msPrevious := t0, done := false } initialState inputs).map
        (fun r => r.2.2)).flatten
  else
    pre ++ Effect.logConnFailed :: hardFail fuel

end MainCpp

/-- Iterated application of `incrementVolume` (state part) in the
esp32InternetRadio.cpp variant. -/
def incN : Nat → State → State
  | 0, s => s
  | n + 1, s => incN n (Esp32InternetRadio.incrementVolume s).1

/-- Number of loop iterations that rendered the menu (their effects
contain the menu title banner) although their input was not the
ShowMenu symbol — i.e. automatic menu renders. -/
def autoMenuRenders (inputs : List (Nat × Option Char))
    (results : List (LoopState × State × List Effect)) : Nat :=
  (inputs.zip results).countP
    (fun p => decide (Effect.printMenuTitle ∈ p.2.2.2) && !(p.1.2 == some 'S'))

/-- Claim C1: the spec says selecting a PlayStream entry sets
`selectedIndex` (`currentStation`) to the entry position and issues
exactly one `playStream` (`connecttohost`) call with the entry
parameter.  The switch-based dispatcher of esp32InternetRadio.cpp does
exactly that, but the function-pointer dispatcher of main.cpp calls
`playRadio`, which only issues `connecttohost` and never writes
`currentStation`: selecting entry 0 from the initial state leaves the
whole session state (in particular `currentStation = 5`) unchanged, so
`showCurrentStation` keeps reporting the preselected station, against
the documented purpose of main.cpp. -/
theorem mainCpp_playRadio_leaves_currentStation :
    (MainCpp.menuAt 0).action = MainCpp.Action.playRadio ∧
    MainCpp.initialState.currentStation = 5 ∧
    (MainCpp.doMenu '0' MainCpp.initialState).1 = MainCpp.initialState ∧
    (MainCpp.doMenu '0' MainCpp.initialState).2.filter isEngineCall
      = [Effect.connecttohost (MainCpp.menuAt 0).arg] ∧
    (Esp32InternetRadio.doMenu '0' Esp32InternetRadio.initialState).1.currentStation = 0 ∧
    (Esp32InternetRadio.doMenu '0' Esp32InternetRadio.initialState).1.currentUrl
      = (Esp32InternetRadio.stationAt 0).url ∧
    (Esp32InternetRadio.doMenu '0' Esp32InternetRadio.initialState).2.filter isEngineCall
      = [Effect.connecttohost (Esp32InternetRadio.stationAt 0).url] := by
  decide

/-- Claim C8: startup commands the engine exactly once to play the
catalog entry preselected at index 5 ("Swiss Classic") at
DEFAULT_VOLUME = 10, before any operator input is consumed (the traces
below consume no input), in both variants. -/
theorem startup_plays_default_station :
    Esp32InternetRadio.initialState.currentStation = 5 ∧
    (Esp32InternetRadio.stationAt 5).name = "Swiss Classic" ∧
    DEFAULT_VOLUME = 10 ∧
    Esp32InternetRadio.initAudio Esp32InternetRadio.initialState
      = [Effect.setPinout, Effect.setVolume 10,
         Effect.connecttohost "http://stream.srg-ssr.ch/m/rsc_de/mp3_128"] ∧
    (Esp32InternetRadio.program (fun _ => true) 1 0 []).countP isPlayCall = 1 ∧
    Effect.connecttohost (Esp32InternetRadio.stationAt 5).url
      ∈ Esp32InternetRadio.program (fun _ => true) 1 0 [] ∧
    Effect.setVolume DEFAULT_VOLUME ∈ Esp32InternetRadio.program (fun _ => true) 1 0 [] ∧
    MainCpp.initialState.currentStation = 5 ∧
    (MainCpp.menuAt 5).txt = "Swiss Classic" ∧
    (MainCpp.program true 0 0 []).countP isPlayCall = 1 ∧
    Effect.connecttohost (MainCpp.menuAt 5).arg ∈ MainCpp.program true 0 0 [] ∧
    Effect.setVolume DEFAULT_VOLUME ∈ MainCpp.program true 0 0 [] := by
  decide

/-- Claim C9: in both variants, `incrementVolume` and
`decrementVolume` issue an engine call (their only engine call is
`setVolume`) exactly when the stored volume level changed; at the
ceiling and at the floor no engine call is made. -/
theorem setVolume_called_iff_level_changed (s : State) :
    ((Esp32InternetRadio.incrementVolume s).2.any isEngineCall = true ↔
      (Esp32InternetRadio.incrementVolume s).1.currentVolume ≠ s.currentVolume) ∧
    ((Esp32InternetRadio.decrementVolume s).2.any isEngineCall = true ↔
      (Esp32InternetRadio.decrementVolume s).1.currentVolume ≠ s.currentVolume) ∧
    ((MainCpp.incrementVolume s).2.any isEngineCall = true ↔
      (MainCpp.incrementVolume s).1.currentVolume ≠ s.currentVolume) ∧
    ((MainCpp.decrementVolume s).2.any isEngineCall = true ↔
      (MainCpp.decrementVolume s).1.currentVolume ≠ s.currentVolume) := by
  refine ⟨?_, ?_, ?_, ?_⟩ <;>
    [unfold Esp32InternetRadio.incrementVolume;
     unfold Esp32InternetRadio.decrementVolume;
     unfold MainCpp.incrementVolume;
     unfold MainCpp.decrementVolume] <;>
    split <;> simp [isEngineCall]

/-- Helper: the esp32InternetRadio.cpp dispatcher keeps the volume
level inside [0, MAX_VOLUME]. -/
theorem volBoundsEsp (key : Char) (s : State)
    (h0 : 0 ≤ s.currentVolume) (h1 : s.currentVolume ≤ MAX_VOLUME) :
    0 ≤ (Esp32InternetRadio.doMenu key s).1.currentVolume ∧
    (Esp32InternetRadio.doMenu key s).1.currentVolume ≤ MAX_VOLUME := by
  unfold Esp32InternetRadio.doMenu
  cases hf : Esp32InternetRadio.station.findIdx? (fun r => r.key == key) with
  | none => exact ⟨h0, h1⟩
  | some i =>
    simp only
    split_ifs with hS hC hT hE hD hI hP hM
    · exact ⟨h0, h1⟩
    · exact ⟨h0, h1⟩
    · unfold Esp32InternetRadio.toggleSpeaker
      simp only [MIN_VOLUME, MAX_VOLUME, DEFAULT_VOLUME] at *
      split_ifs with hOn hz
      · exact ⟨h0, h1⟩
      · refine ⟨?_, ?_⟩ <;> show _ ≤ _ <;> simp only [] <;> omega
      · refine ⟨?_, ?_⟩ <;> show _ ≤ _ <;> simp only [] <;> omega
    · exact ⟨h0, h1⟩
    · exact ⟨h0, h1⟩
    · exact ⟨h0, h1⟩
    · unfold Esp32InternetRadio.incrementVolume
      simp only [MAX_VOLUME] at *
      split_ifs with hlt
      · refine ⟨?_, ?_⟩ <;> show _ ≤ _ <;> simp only [] <;> omega
      · exact ⟨h0, h1⟩
    · unfold Esp32InternetRadio.decrementVolume
      simp only [MAX_VOLUME] at *
      split_ifs with hgt
      · refine ⟨?_, ?_⟩ <;> show _ ≤ _ <;> simp only [] <;> omega
      · exact ⟨h0, h1⟩
    · exact ⟨h0, h1⟩

/-- Helper: the main.cpp dispatcher keeps the volume level inside
[0, MAX_VOLUME]. -/
theorem volBoundsMain (key : Char) (s : State)
    (h0 : 0 ≤ s.currentVolume) (h1 : s.currentVolume ≤ MAX_VOLUME) :
    0 ≤ (MainCpp.doMenu key s).1.currentVolume ∧
    (MainCpp.doMenu key s).1.currentVolume ≤ MAX_VOLUME := by
  unfold MainCpp.doMenu
  cases hf : MainCpp.menu.findIdx? (fun r => r.key == key) with
  | none => exact ⟨h0, h1⟩
  | some i =>
    simp only
    unfold MainCpp.runAction
    cases ha : (MainCpp.menuAt i).action
    · exact ⟨h0, h1⟩
    · exact ⟨h0, h1⟩
    · exact ⟨h0, h1⟩
    · exact ⟨h0, h1⟩
    · exact ⟨h0, h1⟩
    · unfold MainCpp.incrementVolume
      simp only [MAX_VOLUME] at *
      split_ifs with hlt
      · refine ⟨?_, ?_⟩ <;> show _ ≤ _ <;> simp only [] <;> omega
      · exact ⟨h0, h1⟩
    · unfold MainCpp.decrementVolume
      simp only [MAX_VOLUME] at *
      split_ifs with hgt
      · refine ⟨?_, ?_⟩ <;> show _ ≤ _ <;> simp only [] <;> omega
      · exact ⟨h0, h1⟩
    · unfold MainCpp.toggleSpeaker
      simp only [MIN_VOLUME, MAX_VOLUME, DEFAULT_VOLUME] at *
      split_ifs with hOn hz
      · exact ⟨h0, h1⟩
      · refine ⟨?_, ?_⟩ <;> show _ ≤ _ <;> simp only [] <;> omega
      · refine ⟨?_, ?_⟩ <;> show _ ≤ _ <;> simp only [] <;> omega
    · exact ⟨h0, h1⟩
    · exact ⟨h0, h1⟩

/-- Claim C6: the invariant 0 ≤ volumeLevel ≤ MAX_VOLUME holds in the
initial state and is preserved by every dispatcher action of both
variants (in particular `decrementVolume` never drives it negative). -/
theorem volume_invariant_preserved (key : Char) (s : State)
    (h0 : 0 ≤ s.currentVolume) (h1 : s.currentVolume ≤ MAX_VOLUME) :
    (0 ≤ Esp32InternetRadio.initialState.currentVolume ∧
     Esp32InternetRadio.initialState.currentVolume ≤ MAX_VOLUME) ∧
    (0 ≤ MainCpp.initialState.currentVolume ∧
     MainCpp.initialState.currentVolume ≤ MAX_VOLUME) ∧
    (0 ≤ (Esp32InternetRadio.doMenu key s).1.currentVolume ∧
     (Esp32InternetRadio.doMenu key s).1.currentVolume ≤ MAX_VOLUME) ∧
    (0 ≤ (MainCpp.doMenu key s).1.currentVolume ∧
     (MainCpp.doMenu key s).1.currentVolume ≤ MAX_VOLUME) :=
  ⟨by decide, by decide, volBoundsEsp key s h0 h1, volBoundsMain key s h0 h1⟩

/-- Witness for claim C6 at the concrete key `'-'` in the initial
state. -/
theorem volume_invariant_preserved_witness :
    0 ≤ Esp32InternetRadio.initialState.currentVolume ∧
    Esp32InternetRadio.initialState.currentVolume ≤ MAX_VOLUME ∧
    0 ≤ (Esp32InternetRadio.doMenu '-' Esp32InternetRadio.initialState).1.currentVolume ∧
    (Esp32InternetRadio.doMenu '-' Esp32InternetRadio.initialState).1.currentVolume
      ≤ MAX_VOLUME :=
  ⟨by decide, by decide,
   (volume_invariant_preserved '-' Esp32InternetRadio.initialState
      (by decide) (by decide)).2.2.1⟩

/-- Helper: a key matching no table entry makes the table scan of
`findIdx?` come up empty. -/
theorem findIdxNoneOfAllNe {α} (l : List α) (f : α → Char) (key : Char)
    (h : l.all (fun r => f r != key) = true) :
    l.findIdx? (fun r => f r == key) = none := by
  rw [List.findIdx?_eq_none_iff]
  intro x hx
  have hx2 := List.all_eq_true.mp h x hx
  simpa using hx2

/-- Claim C3: an input character matching no catalog entry leaves the
whole session state unchanged and issues no engine call, in both
variants. -/
theorem doMenu_unmatched_key_frame (key : Char) (s : State)
    (h1 : Esp32InternetRadio.station.all (fun r => r.key != key) = true)
    (h2 : MainCpp.menu.all (fun r => r.key != key) = true) :
    (Esp32InternetRadio.doMenu key s).1 = s ∧
    (Esp32InternetRadio.doMenu key s).2.all (fun e => !(isEngineCall e)) = true ∧
    (MainCpp.doMenu key s).1 = s ∧
    (MainCpp.doMenu key s).2.all (fun e => !(isEngineCall e)) = true := by
  have g1 := findIdxNoneOfAllNe Esp32InternetRadio.station
    Esp32InternetRadio.Radiostation.key key h1
  have g2 := findIdxNoneOfAllNe MainCpp.menu MainCpp.MenuItem.key key h2
  unfold Esp32InternetRadio.doMenu MainCpp.doMenu
  rw [g1, g2]
  simp [isEngineCall]

/-- Witness for claim C3 at the concrete unmatched key `'z'`. -/
theorem doMenu_unmatched_key_frame_witness :
    Esp32InternetRadio.station.all (fun r => r.key != 'z') = true ∧
    MainCpp.menu.all (fun r => r.key != 'z') = true ∧
    (Esp32InternetRadio.doMenu 'z' Esp32InternetRadio.initialState).1
      = Esp32InternetRadio.initialState :=
  ⟨by decide, by decide,
   (doMenu_unmatched_key_frame 'z' Esp32InternetRadio.initialState
      (by decide) (by decide)).1⟩

/-- Helper: iterating `incrementVolume` from a level at most
MAX_VOLUME moves the level to the minimum of level + steps and
MAX_VOLUME. -/
theorem incNVolume (n : Nat) (s : State)
    (h : s.currentVolume ≤ MAX_VOLUME) :
    (incN n s).currentVolume = min (s.currentVolume + n) MAX_VOLUME := by
  induction n generalizing s with
  | zero =>
    show s.currentVolume = min (s.currentVolume + (0 : Nat)) MAX_VOLUME
    simp only [MAX_VOLUME] at *
    omega
  | succ n ih =>
    show (incN n (Esp32InternetRadio.incrementVolume s).1).currentVolume = _
    unfold Esp32InternetRadio.incrementVolume
    by_cases hlt : s.currentVolume < MAX_VOLUME
    · rw [if_pos hlt, ih _ (by simp only [MAX_VOLUME] at *; omega)]
      simp only [MAX_VOLUME] at *
      push_cast
      omega
    · rw [if_neg hlt, ih _ h]
      simp only [MAX_VOLUME] at *
      push_cast
      omega

/-- Claim C5: from any starting volume level in [0, MAX_VOLUME],
applying `incrementVolume` MAX_VOLUME + k times ends at exactly
MAX_VOLUME, for every k. -/
theorem incrementVolume_clamps_at_max (s : State) (k : Nat)
    (h0 : 0 ≤ s.currentVolume) (h1 : s.currentVolume ≤ MAX_VOLUME) :
    (incN (MAX_VOLUME.toNat + k) s).currentVolume = MAX_VOLUME := by
  rw [incNVolume _ _ h1]
  simp only [MAX_VOLUME] at *
  push_cast
  omega

/-- Witness for claim C5 from the initial state with k = 2. -/
theorem incrementVolume_clamps_at_max_witness :
    0 ≤ Esp32InternetRadio.initialState.currentVolume ∧
    Esp32InternetRadio.initialState.currentVolume ≤ MAX_VOLUME ∧
    (incN (MAX_VOLUME.toNat + 2) Esp32InternetRadio.initialState).currentVolume
      = MAX_VOLUME :=
  ⟨by decide, by decide,
   incrementVolume_clamps_at_max Esp32InternetRadio.initialState 2
     (by decide) (by decide)⟩

/-- Counterexample to claim C2: the handled input symbol `'+'` from
the initial state mutates the session state (volume 10 to 11), issues
an engine command (`setVolume`) and renders (the line clear and the
volume report) — three side-effect categories for one symbol, so the
effects of a handled symbol are not confined to exactly one
category. -/
theorem doMenu_increment_multi_category :
    (Esp32InternetRadio.doMenu '+' Esp32InternetRadio.initialState).1
      ≠ Esp32InternetRadio.initialState ∧
    (Esp32InternetRadio.doMenu '+' Esp32InternetRadio.initialState).2.any isEngineCall
      = true ∧
    (Esp32InternetRadio.doMenu '+' Esp32InternetRadio.initialState).2.any isRender
      = true := by
  decide

/-- Claim C2 as amended: the side effects of one input symbol may span
several categories (station selection mutates state and commands the
engine; volume and speaker changes mutate state, command the engine
and render), but each dispatch invokes a single bound action and
issues at most one engine command, in both variants. -/
theorem doMenu_at_most_one_engine_call (key : Char) (s : State) :
    (Esp32InternetRadio.doMenu key s).2.countP isEngineCall ≤ 1 ∧
    (MainCpp.doMenu key s).2.countP isEngineCall ≤ 1 := by
  constructor
  · unfold Esp32InternetRadio.doMenu
    cases hf : Esp32InternetRadio.station.findIdx? (fun r => r.key == key) with
    | none => simp [List.countP_cons, List.countP_nil, isEngineCall]
    | some i =>
      simp only
      split_ifs with hS hC hT hE hD hI hP hM
      · simp [Esp32InternetRadio.showMenu, Esp32InternetRadio.station,
          List.countP_cons, List.countP_nil, List.countP_append, isEngineCall]
      · simp [Esp32InternetRadio.showCurrentStation,
          List.countP_cons, List.countP_nil, isEngineCall]
      · unfold Esp32InternetRadio.toggleSpeaker
        split_ifs <;> simp [List.countP_cons, List.countP_nil, isEngineCall]
      · simp [List.countP_cons, List.countP_nil, isEngineCall]
      · simp [List.countP_cons, List.countP_nil, isEngineCall]
      · simp [List.countP_cons, List.countP_nil, isEngineCall]
      · unfold Esp32InternetRadio.incrementVolume
        split_ifs <;> simp [List.countP_cons, List.countP_nil, isEngineCall]
      · unfold Esp32InternetRadio.decrementVolume
        split_ifs <;> simp [List.countP_cons, List.countP_nil, isEngineCall]
      · simp [List.countP_cons, List.countP_nil, isEngineCall]
  · unfold MainCpp.doMenu
    cases hf : MainCpp.menu.findIdx? (fun r => r.key == key) with
    | none => simp [List.countP_cons, List.countP_nil, isEngineCall]
    | some i =>
      simp only
      unfold MainCpp.runAction
      cases ha : (MainCpp.menuAt i).action
      · simp [List.countP_cons, List.countP_nil, isEngineCall]
      · simp [List.countP_cons, List.countP_nil, isEngineCall]
      · simp [List.countP_cons, List.countP_nil, isEngineCall]
      · simp [List.countP_cons, List.countP_nil, isEngineCall]
      · simp [List.countP_cons, List.countP_nil, isEngineCall]
      · unfold MainCpp.incrementVolume
        split_ifs <;> simp [List.countP_cons, List.countP_nil, isEngineCall]
      · unfold MainCpp.decrementVolume
        split_ifs <;> simp [List.countP_cons, List.countP_nil, isEngineCall]
      · unfold MainCpp.toggleSpeaker
        split_ifs <;> simp [List.countP_cons, List.countP_nil, isEngineCall]
      · simp [MainCpp.showCurrentStation, List.countP_cons, List.countP_nil,
          isEngineCall]
      · simp [MainCpp.showMenu, MainCpp.menu,
          List.countP_cons, List.countP_nil, List.countP_append, isEngineCall]

/-- Claim C4: applying `toggleSpeaker` twice restores the speaker flag
and the volume level (and touches nothing else), except that a volume
level of 0 comes back as DEFAULT_VOLUME = 10; proved for both
variants. -/
theorem toggleSpeaker_involution (s : State) :
    DEFAULT_VOLUME = 10 ∧
    (Esp32InternetRadio.toggleSpeaker (Esp32InternetRadio.toggleSpeaker s).1).1
      = { s with currentVolume :=
            if s.currentVolume = 0 then DEFAULT_VOLUME else s.currentVolume } ∧
    (MainCpp.toggleSpeaker (MainCpp.toggleSpeaker s).1).1
      = { s with currentVolume :=
            if s.currentVolume = 0 then DEFAULT_VOLUME else s.currentVolume } := by
  refine ⟨rfl, ?_, ?_⟩ <;>
    [unfold Esp32InternetRadio.toggleSpeaker;
     unfold MainCpp.toggleSpeaker] <;>
    cases hb : s.spkrIsOn <;>
    by_cases hv : s.currentVolume = 0 <;>
    simp [hb, hv, MIN_VOLUME, DEFAULT_VOLUME]

/-- Helper: when the poll loop of `initWiFi` returns, the WiFi status
at the returning poll really is connected. -/
theorem wifiWaitConnected (status : Nat → Bool) :
    ∀ fuel t t2, (Esp32InternetRadio.wifiWait status t fuel).2 = some t2 →
      status t2 = true := by
  intro fuel
  induction fuel with
  | zero => intro t t2 h; simp [Esp32InternetRadio.wifiWait] at h
  | succ n ih =>
    intro t t2 h
    unfold Esp32InternetRadio.wifiWait at h
    by_cases hs : status t
    · rw [if_pos hs] at h
      simp at h
      subst h
      exact hs
    · rw [if_neg hs] at h
      simp only [] at h
      exact ih _ _ h

/-- Helper: while blocked in the poll loop of `initWiFi`, the only
effects emitted are the progress print and the one second delay. -/
theorem wifiWaitEffects (status : Nat → Bool) :
    ∀ fuel t e, e ∈ (Esp32InternetRadio.wifiWait status t fuel).1 →
      e = Effect.printConnecting ∨ e = Effect.delayMs 1000 := by
  intro fuel
  induction fuel with
  | zero => intro t e h; simp [Esp32InternetRadio.wifiWait] at h
  | succ n ih =>
    intro t e h
    unfold Esp32InternetRadio.wifiWait at h
    by_cases hs : status t
    · rw [if_pos hs] at h; simp at h
    · rw [if_neg hs] at h
      simp only [List.mem_cons] at h
      rcases h with h | h | h
      · exact Or.inl h
      · exact Or.inr h
      · exact ih _ _ h

/-- Helper: a WiFi that never connects keeps the poll loop of
`initWiFi` from returning. -/
theorem wifiWaitNone (status : Nat → Bool) (hs : ∀ t, status t = false) :
    ∀ fuel t, (Esp32InternetRadio.wifiWait status t fuel).2 = none := by
  intro fuel
  induction fuel with
  | zero => intro t; rfl
  | succ n ih =>
    intro t
    unfold Esp32InternetRadio.wifiWait
    rw [if_neg (by simp [hs t])]
    exact ih (t + 1)

/-- Helper: the hard-failure loop signals at every iteration. -/
theorem hardFailLength : ∀ fuel, (MainCpp.hardFail fuel).length = fuel := by
  intro fuel
  induction fuel with
  | zero => rfl
  | succ n ih => simp [MainCpp.hardFail, ih]

/-- Helper: the hard-failure loop emits nothing but the visible
failure signal. -/
theorem hardFailMem : ∀ fuel e, e ∈ MainCpp.hardFail fuel →
    e = Effect.heartbeatSignal := by
  intro fuel
  induction fuel with
  | zero => intro e h; simp [MainCpp.hardFail] at h
  | succ n ih =>
    intro e h
    simp only [MainCpp.hardFail, List.mem_cons] at h
    rcases h with h | h
    · exact h
    · exact ih _ h

/-- Helper: with a WiFi that never connects, the whole
esp32InternetRadio.cpp trace contains no engine call and no dispatched
command (every dispatch starts with the line clear, which never
occurs). -/
theorem programBlockedNoEngine (status : Nat → Bool) (fuel t0 : Nat)
    (inputs : List (Nat × Option Char)) (hs : ∀ t, status t = false) :
    (Esp32InternetRadio.program status fuel t0 inputs).all
      (fun e => !(isEngineCall e) && !(e == Effect.clearLine)) = true := by
  have hn := wifiWaitNone status hs fuel 0
  unfold Esp32InternetRadio.program Esp32InternetRadio.initWiFi
  simp only [hn]
  rw [if_neg Bool.false_ne_true, List.all_eq_true]
  intro e he
  simp only [List.mem_cons, List.mem_append, List.mem_singleton] at he
  rcases he with he | (he | he | hnil) | he
  · subst he; rfl
  · subst he; rfl
  · subst he; rfl
  · exact absurd hnil (List.not_mem_nil e)
  · rcases wifiWaitEffects status fuel 0 e he with h | h <;> subst h <;> rfl

/-- Helper: the main.cpp trace on hard WiFi failure is exactly the
init prints followed by the error log and the heartbeat loop. -/
theorem mainProgFailTrace (fuel t0 : Nat) (inputs : List (Nat × Option Char)) :
    MainCpp.program false fuel t0 inputs
      = [Effect.serialBegin, Effect.pinModeOutput, Effect.logConnFailed]
          ++ MainCpp.hardFail fuel := by
  unfold MainCpp.program
  rw [if_neg Bool.false_ne_true]
  rfl

/-- Helper: the main.cpp hard-failure trace contains no engine call
and no dispatched command. -/
theorem mainProgFailNoEngine (fuel t0 : Nat)
    (inputs : List (Nat × Option Char)) :
    (MainCpp.program false fuel t0 inputs).all
      (fun e => !(isEngineCall e) && !(e == Effect.clearLine)) = true := by
  rw [mainProgFailTrace fuel t0 inputs, List.all_eq_true]
  intro e he
  simp only [List.mem_append, List.mem_cons, List.mem_singleton] at he
  rcases he with (he | he | he | hnil) | he
  · subst he; rfl
  · subst he; rfl
  · subst he; rfl
  · exact absurd hnil (List.not_mem_nil e)
  · rw [hardFailMem fuel e he]; rfl

/-- Claim C7: command handling and playback are gated on
connectivity.  In esp32InternetRadio.cpp the poll loop only returns
once the WiFi status reads connected, and if the WiFi never connects
the whole program trace contains neither an engine call (so no
playback) nor the line clear that starts every command dispatch.  In
main.cpp a hard `initWiFi` failure makes the trace end in the logged
error followed by the indefinite heartbeat loop, which signals visibly
at every iteration and never reaches an engine call or a command
dispatch. -/
theorem connectivity_gates_playback :
    (∀ status fuel t t2,
        (Esp32InternetRadio.wifiWait status t fuel).2 = some t2 →
          status t2 = true) ∧
    (∀ status fuel t0 inputs, (∀ t, status t = false) →
        (Esp32InternetRadio.program status fuel t0 inputs).all
          (fun e => !(isEngineCall e) && !(e == Effect.clearLine)) = true) ∧
    (∀ fuel t0 inputs,
        MainCpp.program false fuel t0 inputs
          = [Effect.serialBegin, Effect.pinModeOutput, Effect.logConnFailed]
              ++ MainCpp.hardFail fuel) ∧
    (∀ fuel, (MainCpp.hardFail fuel).length = fuel) ∧
    (∀ fuel e, e ∈ MainCpp.hardFail fuel → e = Effect.heartbeatSignal) ∧
    (∀ fuel t0 inputs,
        (MainCpp.program false fuel t0 inputs).all
          (fun e => !(isEngineCall e) && !(e == Effect.clearLine)) = true) :=
  ⟨wifiWaitConnected,
   fun status fuel t0 inputs hs => programBlockedNoEngine status fuel t0 inputs hs,
   mainProgFailTrace, hardFailLength, hardFailMem, mainProgFailNoEngine⟩

/-- Witness for claim C7: a WiFi that connects at the third poll is
connected when the poll loop returns, and with a WiFi that never
connects, a concrete bounded trace (with a pending station keystroke)
contains no engine call and no dispatch. -/
theorem connectivity_gates_playback_witness :
    ((fun t : Nat => t == 2) 2 = true) ∧
    (Esp32InternetRadio.program (fun _ => false) 3 0 [(6000, some '5')]).all
      (fun e => !(isEngineCall e) && !(e == Effect.clearLine)) = true :=
  ⟨connectivity_gates_playback.1 (fun t => t == 2) 5 0 2 (by decide),
   connectivity_gates_playback.2.1 (fun _ => false) 3 0 [(6000, some '5')]
     (fun _ => rfl)⟩

/-- Helper: every dispatch of a key other than ShowMenu emits no menu
title banner, i.e. does not render the menu. -/
theorem titleNotInDoMenu (key : Char) (s : State) (hk : key ≠ 'S') :
    Effect.printMenuTitle ∉ (Esp32InternetRadio.doMenu key s).2 := by
  unfold Esp32InternetRadio.doMenu
  cases hf : Esp32InternetRadio.station.findIdx? (fun r => r.key == key) with
  | none => simp
  | some i =>
    simp only
    split_ifs with hS hC hT hE hD hI hP hM
    · exact absurd (by simpa using hS) hk
    · simp [Esp32InternetRadio.showCurrentStation]
    · unfold Esp32InternetRadio.toggleSpeaker
      split_ifs <;> simp
    · simp
    · simp
    · simp
    · unfold Esp32InternetRadio.incrementVolume
      split_ifs <;> simp
    · unfold Esp32InternetRadio.decrementVolume
      split_ifs <;> simp
    · simp

/-- Helper: once the `done` latch is set, no loop iteration renders
the menu other than on the ShowMenu input symbol. -/
theorem autoRendersDone (inputs : List (Nat × Option Char)) :
    ∀ ls s, ls.done = true →
      autoMenuRenders inputs (Esp32InternetRadio.runLoop ls s inputs) = 0 := by
  induction inputs with
  | nil => intro ls s h; rfl
  | cons p rest ih =>
    obtain ⟨t, inp⟩ := p
    intro ls s h
    unfold Esp32InternetRadio.runLoop Esp32InternetRadio.loopStep
    simp only [h, if_true]
    cases inp with
    | none =>
      unfold autoMenuRenders
      rw [List.zip_cons_cons, List.countP_cons]
      have ih2 := ih ls s h
      unfold autoMenuRenders at ih2
      rw [ih2]
      simp
    | some k =>
      unfold autoMenuRenders
      rw [List.zip_cons_cons, List.countP_cons]
      have ih2 := ih ls (Esp32InternetRadio.doMenu k s).1 h
      unfold autoMenuRenders at ih2
      rw [ih2]
      by_cases hk : k = 'S'
      · subst hk; simp
      · have hnt := titleNotInDoMenu k s hk
        simp [hnt]

/-- Helper: starting with the `done` latch clear, at most one loop
iteration ever renders the menu without the ShowMenu input symbol
(the latch is set by the single automatic render and never cleared). -/
theorem autoRendersLatch (inputs : List (Nat × Option Char)) :
    ∀ ls s, ls.done = false →
      autoMenuRenders inputs (Esp32InternetRadio.runLoop ls s inputs) ≤ 1 := by
  induction inputs with
  | nil => intro ls s h; exact Nat.zero_le 1
  | cons p rest ih =>
    obtain ⟨t, inp⟩ := p
    intro ls s h
    unfold Esp32InternetRadio.runLoop Esp32InternetRadio.loopStep
    simp only [h]
    rw [if_neg Bool.false_ne_true]
    by_cases hfire : waitIsOver t ls.msPrevious 5000 = true
    · rw [if_pos hfire]
      cases inp with
      | none =>
        unfold autoMenuRenders
        rw [List.zip_cons_cons, List.countP_cons]
        have hd := autoRendersDone rest { msPrevious := t, done := true } s rfl
        unfold autoMenuRenders at hd
        rw [hd]
        split <;> simp
      | some k =>
        unfold autoMenuRenders
        rw [List.zip_cons_cons, List.countP_cons]
        have hd := autoRendersDone rest { msPrevious := t, done := true }
          (Esp32InternetRadio.doMenu k s).1 rfl
        unfold autoMenuRenders at hd
        rw [hd]
        split <;> simp
    · rw [if_neg hfire]
      cases inp with
      | none =>
        unfold autoMenuRenders
        rw [List.zip_cons_cons, List.countP_cons]
        have ih2 := ih ls s h
        unfold autoMenuRenders at ih2
        simpa using ih2
      | some k =>
        unfold autoMenuRenders
        rw [List.zip_cons_cons, List.countP_cons]
        have ih2 := ih ls (Esp32InternetRadio.doMenu k s).1 h
        unfold autoMenuRenders at ih2
        by_cases hk : k = 'S'
        · subst hk
          simpa using ih2
        · have hnt := titleNotInDoMenu k s hk
          simpa [hnt] using ih2

/-- Claim C10: over any schedule of loop iterations starting with the
`done` latch clear (its initial value), at most one iteration renders
the menu without a ShowMenu input — the automatic startup render,
latched once and never cleared — while the ShowMenu key always renders
the menu. -/
theorem auto_menu_render_at_most_once (t0 : Nat) (s : State)
    (inputs : List (Nat × Option Char)) :
    (∀ s2 : State, Effect.printMenuTitle ∈ (Esp32InternetRadio.doMenu 'S' s2).2) ∧
    autoMenuRenders inputs
      (Esp32InternetRadio.runLoop { msPrevious := t0, done := false } s inputs)
      ≤ 1 := by
  constructor
  · intro s2
    unfold Esp32InternetRadio.doMenu
    have hidx : Esp32InternetRadio.station.findIdx?
        (fun r => r.key == 'S') = some 31 := by decide
    simp only [hidx, Esp32InternetRadio.showMenu]
    simp
  · exact autoRendersLatch inputs { msPrevious := t0, done := false } s rfl
